import Mathlib

/-!
Verification of the runtime value-rendering layer (`src/sailfish/src/runtime/render.rs`).

The output `Buffer` is modelled as a `String`; its two operations consumed by this
layer (append a text sequence, append a single character) are modelled as string
append and push.  Each `Render` implementation is modelled as a function from the
rendered value and the incoming buffer to `Except Unit Buffer`, mirroring
`fn render(&self, b: &mut Buffer) -> fmt::Result`: a `.ok b2` result carries the
buffer contents after the call, `.error ()` models `fmt::Error`.
-/

/-- The output buffer collaborator: an append-only text sink. -/
abbrev Buffer := String

/-- `Buffer::new()`: a freshly allocated, empty buffer. -/
def Buffer.new : Buffer := ""

/-- `Buffer::write_str`: append a text sequence (infallible at this boundary). -/
def write_str (b : Buffer) (s : String) : Buffer := b ++ s

/-- `Buffer::write_char`: append a single character. -/
def write_char (b : Buffer) (c : Char) : Buffer := b.push c

/-- Modelled from the spec: the Escaping Primitive's fixed character-to-entity
mapping (the `escape` module is not under `src/`): `"` becomes `&quot;`, `&`
becomes `&amp;`, `<` becomes `&lt;`, `>` becomes `&gt;`, every other character
is kept as itself. -/
def escapeChar (c : Char) : String :=
  if c = '"' then "&quot;"
  else if c = '&' then "&amp;"
  else if c = '<' then "&lt;"
  else if c = '>' then "&gt;"
  else String.singleton c

/-- Modelled from the spec: `escape::escape_to_buf(s, b)` — copy the text
sequence `s` into the buffer `b`, substituting the fixed character-to-entity
mapping. -/
def escape_to_buf (s : String) (b : Buffer) : Buffer :=
  s.data.foldl (fun acc c => acc ++ escapeChar c) b

/-- The `Render` trait's provided default: render the value raw into a freshly
allocated temporary buffer, then `b.write_str(tmp.as_str())`.
(Source lines 12–17.) -/
def render_escaped_default (render : Buffer → Except Unit Buffer) (b : Buffer) :
    Except Unit Buffer :=
  match render Buffer.new with
  | .error e => .error e
  | .ok tmp => .ok (write_str b tmp)

/-- `impl Render for str` / `impl Render for &str`: `render` appends the text
verbatim. -/
def str_render (s : String) (b : Buffer) : Except Unit Buffer :=
  .ok (write_str b s)

/-- `impl Render for str` / `impl Render for &str`: `render_escaped` routes the
text through the Escaping Primitive. -/
def str_render_escaped (s : String) (b : Buffer) : Except Unit Buffer :=
  .ok (escape_to_buf s b)

/-- `impl Render for String`: `render` appends the text verbatim. -/
def string_render (s : String) (b : Buffer) : Except Unit Buffer :=
  .ok (write_str b s)

/-- `impl Render for String`: `render_escaped` routes through the Escaping
Primitive. -/
def string_render_escaped (s : String) (b : Buffer) : Except Unit Buffer :=
  .ok (escape_to_buf s b)

/-- `impl Render for char`: `render` appends the single character. -/
def char_render (c : Char) (b : Buffer) : Except Unit Buffer :=
  .ok (write_char b c)

/-- `impl Render for char`: `render_escaped` — the hand-specialized four-way
switch of source lines 95–104. -/
def char_render_escaped (c : Char) (b : Buffer) : Except Unit Buffer :=
  .ok (if c = '"' then write_str b "&quot;"
       else if c = '&' then write_str b "&amp;"
       else if c = '<' then write_str b "&lt;"
       else if c = '>' then write_str b "&gt;"
       else write_char b c)

/-- `impl Render for bool`: `render` appends one of the two fixed literals. -/
def bool_render (v : Bool) (b : Buffer) : Except Unit Buffer :=
  .ok (write_str b (if v then "true" else "false"))

/-- `impl Render for bool`: `render_escaped` delegates to `render`. -/
def bool_render_escaped (v : Bool) (b : Buffer) : Except Unit Buffer :=
  bool_render v b

/-- Modelled from the spec: decimal digit characters of a natural number, most
significant first (the integer formatter of §4.4 is the external `itoa`
crate; only its output — locale-independent decimal text — is specified). -/
def natDecimalDigits (n : ℕ) : List Char :=
  if _h : n < 10 then [Nat.digitChar n]
  else natDecimalDigits (n / 10) ++ [Nat.digitChar (n % 10)]
  decreasing_by omega

/-- Modelled from the spec: `itoa::Buffer::format` — the decimal text of an
integer, with a leading sign when negative. -/
def itoa_format (n : ℤ) : String :=
  if n < 0 then ⟨'-' :: natDecimalDigits n.natAbs⟩ else ⟨natDecimalDigits n.toNat⟩

/-- `render_int!` family: `render` formats the integer into a stack buffer via
`itoa` and appends the formatted text. -/
def int_render (n : ℤ) (b : Buffer) : Except Unit Buffer :=
  .ok (write_str b (itoa_format n))

/-- `render_int!` family: `render_escaped` delegates to `render`
(write_str without escape). -/
def int_render_escaped (n : ℤ) (b : Buffer) : Except Unit Buffer :=
  int_render n b

/-- `render_float!` family: `render` formats the float into a stack buffer via
`ryu` and appends the formatted text.  The `ryu` formatter operates on IEEE 754
floats, outside the shallow embedding; its output for the rendered value is
abstracted as the string parameter `fmtOutput`.  The rendering logic itself is
faithful: append the formatted text, return success. -/
def float_render (fmtOutput : String) (b : Buffer) : Except Unit Buffer :=
  .ok (write_str b fmtOutput)

/-- `render_float!` family: `render_escaped` delegates to `render`. -/
def float_render_escaped (fmtOutput : String) (b : Buffer) : Except Unit Buffer :=
  float_render fmtOutput b

/-- A unit of a platform path: either a validly encoded character or an invalid
encoding sequence.  Models `Path` contents at the boundary of
`to_string_lossy`. -/
inductive PathUnit where
  | valid (c : Char)
  | invalid
deriving DecidableEq

/-- A platform path, modelled as its encoded units. -/
abbrev PathModel := List PathUnit

/-- Modelled from the spec: `Path::to_string_lossy` — lossy conversion to text
in which each invalid encoding sequence is replaced (by U+FFFD) rather than
causing failure. -/
def to_string_lossy (p : PathModel) : String :=
  ⟨p.map (fun u => match u with | .valid c => c | .invalid => '�')⟩

/-- `impl Render for &Path`: `render` appends the lossy conversion verbatim. -/
def path_render (p : PathModel) (b : Buffer) : Except Unit Buffer :=
  .ok (write_str b (to_string_lossy p))

/-- `impl Render for &Path`: `render_escaped` routes the lossy conversion
through the Escaping Primitive. -/
def path_render_escaped (p : PathModel) (b : Buffer) : Except Unit Buffer :=
  .ok (escape_to_buf (to_string_lossy p) b)

/-- `impl Render for PathBuf`: `render` appends the lossy conversion
verbatim. -/
def pathbuf_render (p : PathModel) (b : Buffer) : Except Unit Buffer :=
  .ok (write_str b (to_string_lossy p))

/-- `impl Render for PathBuf`: `render_escaped` routes the lossy conversion
through the Escaping Primitive. -/
def pathbuf_render_escaped (p : PathModel) (b : Buffer) : Except Unit Buffer :=
  .ok (escape_to_buf (to_string_lossy p) b)

/-- Modelled from the spec: decimal parsing used to state the round-trip laws —
fold the digit characters, with a leading minus sign for negatives. -/
def parseNatDigits (l : List Char) : ℕ :=
  l.foldl (fun a c => 10 * a + (c.toNat - 48)) 0

/-- Modelled from the spec: parse decimal text back as an integer. -/
def parse_decimal (s : String) : ℤ :=
  match s.data with
  | [] => 0
  | c :: rest =>
      if c = '-' then -(parseNatDigits rest : ℤ) else (parseNatDigits (c :: rest) : ℤ)

/-! ## Helper lemmas -/

lemma escape_to_buf_data (s : String) (b : Buffer) :
    (escape_to_buf s b).data =
      b.data ++ (s.data.map (fun c => (escapeChar c).data)).flatten := by
  unfold escape_to_buf
  generalize s.data = l
  induction l generalizing b with
  | nil => simp
  | cons c l ih => simp [List.foldl_cons, ih, String.data_append]

lemma escape_to_buf_hom (s : String) (b : Buffer) :
    escape_to_buf s b = b ++ escape_to_buf s "" := by
  apply String.ext
  simp [escape_to_buf_data, String.data_append]

lemma escape_to_buf_join (s : String) :
    escape_to_buf s "" = String.join (s.data.map escapeChar) := by
  apply String.ext
  simp [escape_to_buf_data, String.data_join, List.map_map, Function.comp_def]

lemma digitChar_toNat (d : ℕ) (h : d < 10) : (Nat.digitChar d).toNat = 48 + d := by
  interval_cases d <;> rfl

lemma foldl_natDecimalDigits (n : ℕ) :
    ∀ a : ℕ,
      (natDecimalDigits n).foldl (fun a c => 10 * a + (c.toNat - 48)) a =
        a * 10 ^ (natDecimalDigits n).length + n := by
  induction n using Nat.strong_induction_on with
  | _ n ih =>
    intro a
    rw [natDecimalDigits]
    by_cases h : n < 10
    · rw [dif_pos h]
      simp [List.foldl, digitChar_toNat n h]
      omega
    · rw [dif_neg h]
      have hlt : n / 10 < n := by omega
      have hm : n % 10 < 10 := by omega
      simp only [List.foldl_append, List.foldl_cons, List.foldl_nil,
        List.length_append, List.length_cons, List.length_nil]
      rw [ih (n / 10) hlt a, digitChar_toNat (n % 10) hm]
      have hdm : 10 * (n / 10) + n % 10 = n := Nat.div_add_mod n 10
      have hstep :
          10 * (a * 10 ^ (natDecimalDigits (n / 10)).length + n / 10) + (48 + n % 10 - 48) =
            a * (10 ^ (natDecimalDigits (n / 10)).length * 10) +
              (10 * (n / 10) + n % 10) := by
        have : 48 + n % 10 - 48 = n % 10 := by omega
        rw [this]; ring
      rw [hstep, hdm, pow_succ]

lemma parseNatDigits_natDecimalDigits (n : ℕ) :
    parseNatDigits (natDecimalDigits n) = n := by
  have h := foldl_natDecimalDigits n 0
  simpa [parseNatDigits] using h

lemma natDecimalDigits_head (n : ℕ) :
    ∃ d t, d < 10 ∧ natDecimalDigits n = Nat.digitChar d :: t := by
  induction n using Nat.strong_induction_on with
  | _ n ih =>
    rw [natDecimalDigits]
    by_cases h : n < 10
    · exact ⟨n, [], h, by rw [dif_pos h]⟩
    · obtain ⟨d, t, hd, ht⟩ := ih (n / 10) (by omega)
      exact ⟨d, t ++ [Nat.digitChar (n % 10)], hd, by rw [dif_neg h, ht]; rfl⟩

lemma parse_decimal_cons (c : Char) (rest : List Char) :
    parse_decimal ⟨c :: rest⟩ =
      if c = '-' then -(parseNatDigits rest : ℤ) else (parseNatDigits (c :: rest) : ℤ) :=
  rfl

instance {ε α : Type} [DecidableEq ε] [DecidableEq α] : DecidableEq (Except ε α) := fun a b =>
  match a, b with
  | .ok x, .ok y =>
      if h : x = y then .isTrue (by rw [h]) else .isFalse (fun hc => h (Except.ok.inj hc))
  | .error x, .error y =>
      if h : x = y then .isTrue (by rw [h]) else .isFalse (fun hc => h (Except.error.inj hc))
  | .ok _, .error _ => .isFalse (fun hc => Except.noConfusion hc)
  | .error _, .ok _ => .isFalse (fun hc => Except.noConfusion hc)

lemma push_eq_append (b : Buffer) (c : Char) : b.push c = b ++ String.singleton c := by
  apply String.ext
  simp [String.data_push, String.data_append, String.singleton]

lemma itoa_format_neg42 : itoa_format (-42) = "-42" := by
  simp [itoa_format, natDecimalDigits, Nat.digitChar]

lemma parse_decimal_itoa (n : ℤ) : parse_decimal (itoa_format n) = n := by
  by_cases hn : n < 0
  · rw [itoa_format, if_pos hn]
    rw [parse_decimal_cons, if_pos rfl, parseNatDigits_natDecimalDigits]
    omega
  · rw [itoa_format, if_neg hn]
    obtain ⟨d, t, hd, ht⟩ := natDecimalDigits_head n.toNat
    have hne : Nat.digitChar d ≠ '-' := by
      intro heq
      have h1 := congrArg Char.toNat heq
      rw [digitChar_toNat d hd] at h1
      have h2 : ('-' : Char).toNat = 45 := rfl
      rw [h2] at h1
      omega
    rw [show (⟨natDecimalDigits n.toNat⟩ : String) = ⟨Nat.digitChar d :: t⟩ by rw [ht]]
    rw [parse_decimal_cons, if_neg hne, ← ht, parseNatDigits_natDecimalDigits]
    omega

/-! ## Claim theorems -/

/-- Claim C1 — evaluation of the code at the failing input: the `Render`
trait's default `render_escaped`, applied to the raw renderer of the string
slice `"<"`, appends `"<"` verbatim (`b.write_str(tmp.as_str())`), whereas
escaping the same raw text through the Escaping Primitive yields `"&lt;"`.
The default fallback therefore does NOT route the temporary buffer through the
Escaping Primitive. -/
theorem render_escaped_default_skips_escaping :
    render_escaped_default (fun b => str_render "<" b) "" = .ok "<" ∧
    escape_to_buf "<" "" = "&lt;" ∧
    ("<" : String) ≠ "&lt;" :=
  ⟨by decide, by decide, by decide⟩

/-- Claim C2: for `char`, `render_escaped` of `'"'` appends exactly `&quot;`,
of `'&'` appends `&amp;`, of `'<'` appends `&lt;`, of `'>'` appends `&gt;`,
and every other character is appended verbatim. -/
theorem char_render_escaped_spec (b : Buffer) :
    char_render_escaped '"' b = .ok (b ++ "&quot;") ∧
    char_render_escaped '&' b = .ok (b ++ "&amp;") ∧
    char_render_escaped '<' b = .ok (b ++ "&lt;") ∧
    char_render_escaped '>' b = .ok (b ++ "&gt;") ∧
    ∀ c : Char, c ≠ '"' → c ≠ '&' → c ≠ '<' → c ≠ '>' →
      char_render_escaped c b = .ok (b.push c) := by
  refine ⟨rfl, ?_, ?_, ?_, ?_⟩
  · unfold char_render_escaped
    rw [if_neg (by decide), if_pos rfl]
    rfl
  · unfold char_render_escaped
    rw [if_neg (by decide), if_neg (by decide), if_pos rfl]
    rfl
  · unfold char_render_escaped
    rw [if_neg (by decide), if_neg (by decide), if_neg (by decide), if_pos rfl]
    rfl
  · intro c h1 h2 h3 h4
    unfold char_render_escaped
    rw [if_neg h1, if_neg h2, if_neg h3, if_neg h4]
    rfl

/-- Witness for C2: the ordinary character `'x'` is appended verbatim. -/
theorem char_render_escaped_spec_witness :
    char_render_escaped 'x' "" = .ok ("".push 'x') :=
  (char_render_escaped_spec "").2.2.2.2 'x' (by decide) (by decide) (by decide) (by decide)

/-- Claim C3: text values (string slice and owned string) render verbatim in
raw mode; escaped rendering maps each character through the fixed
character-to-entity substitution (the four markup characters become their
entities, all other characters are untouched) and appends the result; in
particular `Tom & Jerry` renders raw as `Tom & Jerry` and escaped as
`Tom &amp; Jerry`. -/
theorem str_render_spec (s : String) (b : Buffer) :
    str_render s b = .ok (b ++ s) ∧
    string_render s b = .ok (b ++ s) ∧
    str_render_escaped s b = .ok (b ++ String.join (s.data.map escapeChar)) ∧
    string_render_escaped s b = .ok (b ++ String.join (s.data.map escapeChar)) ∧
    str_render "Tom & Jerry" "" = .ok "Tom & Jerry" ∧
    str_render_escaped "Tom & Jerry" "" = .ok "Tom &amp; Jerry" := by
  refine ⟨rfl, rfl, ?_, ?_, by decide, by decide⟩
  · rw [str_render_escaped, escape_to_buf_hom, escape_to_buf_join]
  · rw [string_render_escaped, escape_to_buf_hom, escape_to_buf_join]

/-- Claim C4: for booleans, integers of every width, and floats,
`render_escaped` produces exactly the same result as `render`; and the boolean
renderer appends one of the two fixed literals `true` / `false`. -/
theorem numeric_escape_noop_spec :
    (∀ (v : Bool) (b : Buffer), bool_render_escaped v b = bool_render v b) ∧
    (∀ (n : ℤ) (b : Buffer), int_render_escaped n b = int_render n b) ∧
    (∀ (s : String) (b : Buffer), float_render_escaped s b = float_render s b) ∧
    (∀ b : Buffer,
      bool_render true b = .ok (b ++ "true") ∧ bool_render false b = .ok (b ++ "false")) :=
  ⟨fun _ _ => rfl, fun _ _ => rfl, fun _ _ => rfl, fun _ => ⟨rfl, rfl⟩⟩

/-- Claim C5: raw-rendering an integer appends its decimal text (leading sign
when negative), and parsing that text back yields the integer exactly; in
particular rendering `-42` appends `-42`. -/
theorem int_render_roundtrip (n : ℤ) (b : Buffer) :
    int_render n b = .ok (b ++ itoa_format n) ∧
    parse_decimal (itoa_format n) = n ∧
    int_render (-42) "" = .ok "-42" := by
  refine ⟨rfl, parse_decimal_itoa n, ?_⟩
  rw [int_render, itoa_format_neg42]
  rfl

/-- Claim C7: path rendering applies the lossy conversion (each invalid
encoding unit is replaced by U+FFFD, valid characters are kept) and appends the
resulting text — verbatim for `render`, through the Escaping Primitive for
`render_escaped`; both operations always return success. -/
theorem path_render_spec (p : PathModel) (b : Buffer) :
    path_render p b = .ok (b ++ to_string_lossy p) ∧
    pathbuf_render p b = .ok (b ++ to_string_lossy p) ∧
    path_render_escaped p b =
      .ok (b ++ String.join ((to_string_lossy p).data.map escapeChar)) ∧
    pathbuf_render_escaped p b =
      .ok (b ++ String.join ((to_string_lossy p).data.map escapeChar)) ∧
    to_string_lossy (PathUnit.invalid :: p) = String.singleton '�' ++ to_string_lossy p ∧
    (∀ c : Char,
      to_string_lossy (PathUnit.valid c :: p) = String.singleton c ++ to_string_lossy p) := by
  refine ⟨rfl, rfl, ?_, ?_, ?_, ?_⟩
  · rw [path_render_escaped, escape_to_buf_hom, escape_to_buf_join]
  · rw [pathbuf_render_escaped, escape_to_buf_hom, escape_to_buf_join]
  · apply String.ext
    simp [to_string_lossy, String.data_append, String.singleton]
  · intro c
    apply String.ext
    simp [to_string_lossy, String.data_append, String.singleton]

/-- Claim C8: every built-in render operation returns success for every value —
the rendering logic itself never fails; the only failure path is one propagated
from the underlying raw renderer through the default fallback (sink-level
failure propagation, `?` in the source). -/
theorem render_total_spec :
    (∀ (s : String) (b : Buffer), ∃ b2, str_render s b = .ok b2) ∧
    (∀ (s : String) (b : Buffer), ∃ b2, str_render_escaped s b = .ok b2) ∧
    (∀ (s : String) (b : Buffer), ∃ b2, string_render s b = .ok b2) ∧
    (∀ (s : String) (b : Buffer), ∃ b2, string_render_escaped s b = .ok b2) ∧
    (∀ (c : Char) (b : Buffer), ∃ b2, char_render c b = .ok b2) ∧
    (∀ (c : Char) (b : Buffer), ∃ b2, char_render_escaped c b = .ok b2) ∧
    (∀ (v : Bool) (b : Buffer), ∃ b2, bool_render v b = .ok b2) ∧
    (∀ (v : Bool) (b : Buffer), ∃ b2, bool_render_escaped v b = .ok b2) ∧
    (∀ (n : ℤ) (b : Buffer), ∃ b2, int_render n b = .ok b2) ∧
    (∀ (n : ℤ) (b : Buffer), ∃ b2, int_render_escaped n b = .ok b2) ∧
    (∀ (s : String) (b : Buffer), ∃ b2, float_render s b = .ok b2) ∧
    (∀ (s : String) (b : Buffer), ∃ b2, float_render_escaped s b = .ok b2) ∧
    (∀ (p : PathModel) (b : Buffer), ∃ b2, path_render p b = .ok b2) ∧
    (∀ (p : PathModel) (b : Buffer), ∃ b2, path_render_escaped p b = .ok b2) ∧
    (∀ (p : PathModel) (b : Buffer), ∃ b2, pathbuf_render p b = .ok b2) ∧
    (∀ (p : PathModel) (b : Buffer), ∃ b2, pathbuf_render_escaped p b = .ok b2) ∧
    (∀ (render : Buffer → Except Unit Buffer) (b : Buffer) (e : Unit),
      render Buffer.new = .error e → render_escaped_default render b = .error e) := by
  refine ⟨fun s b => ⟨_, rfl⟩, fun s b => ⟨_, rfl⟩, fun s b => ⟨_, rfl⟩,
    fun s b => ⟨_, rfl⟩, fun c b => ⟨_, rfl⟩, fun c b => ⟨_, rfl⟩,
    fun v b => ⟨_, rfl⟩, fun v b => ⟨_, rfl⟩, fun n b => ⟨_, rfl⟩,
    fun n b => ⟨_, rfl⟩, fun s b => ⟨_, rfl⟩, fun s b => ⟨_, rfl⟩,
    fun p b => ⟨_, rfl⟩, fun p b => ⟨_, rfl⟩, fun p b => ⟨_, rfl⟩,
    fun p b => ⟨_, rfl⟩, ?_⟩
  intro render b e h
  rw [render_escaped_default, h]

/-- Witness for C8: a raw renderer that fails makes the default fallback
propagate exactly that failure. -/
theorem render_total_spec_witness :
    render_escaped_default (fun _ => .error ()) "" = .error () :=
  render_total_spec.2.2.2.2.2.2.2.2.2.2.2.2.2.2.2.2 (fun _ => .error ()) "" () rfl

/-- Claim C9: every built-in render operation is strictly append-only — the
resulting buffer is the incoming buffer with some text appended, so previously
written content is preserved unchanged as a prefix. -/
theorem render_append_only_spec :
    (∀ (s : String) (b : Buffer), ∃ t, str_render s b = .ok (b ++ t)) ∧
    (∀ (s : String) (b : Buffer), ∃ t, str_render_escaped s b = .ok (b ++ t)) ∧
    (∀ (s : String) (b : Buffer), ∃ t, string_render s b = .ok (b ++ t)) ∧
    (∀ (s : String) (b : Buffer), ∃ t, string_render_escaped s b = .ok (b ++ t)) ∧
    (∀ (c : Char) (b : Buffer), ∃ t, char_render c b = .ok (b ++ t)) ∧
    (∀ (c : Char) (b : Buffer), ∃ t, char_render_escaped c b = .ok (b ++ t)) ∧
    (∀ (v : Bool) (b : Buffer), ∃ t, bool_render v b = .ok (b ++ t)) ∧
    (∀ (v : Bool) (b : Buffer), ∃ t, bool_render_escaped v b = .ok (b ++ t)) ∧
    (∀ (n : ℤ) (b : Buffer), ∃ t, int_render n b = .ok (b ++ t)) ∧
    (∀ (n : ℤ) (b : Buffer), ∃ t, int_render_escaped n b = .ok (b ++ t)) ∧
    (∀ (s : String) (b : Buffer), ∃ t, float_render s b = .ok (b ++ t)) ∧
    (∀ (s : String) (b : Buffer), ∃ t, float_render_escaped s b = .ok (b ++ t)) ∧
    (∀ (p : PathModel) (b : Buffer), ∃ t, path_render p b = .ok (b ++ t)) ∧
    (∀ (p : PathModel) (b : Buffer), ∃ t, path_render_escaped p b = .ok (b ++ t)) ∧
    (∀ (p : PathModel) (b : Buffer), ∃ t, pathbuf_render p b = .ok (b ++ t)) ∧
    (∀ (p : PathModel) (b : Buffer), ∃ t, pathbuf_render_escaped p b = .ok (b ++ t)) := by
  have hesc : ∀ (s : String) (b : Buffer), escape_to_buf s b = b ++ escape_to_buf s "" :=
    escape_to_buf_hom
  refine ⟨fun s b => ⟨s, rfl⟩, fun s b => ⟨escape_to_buf s "", by rw [str_render_escaped, hesc]⟩,
    fun s b => ⟨s, rfl⟩,
    fun s b => ⟨escape_to_buf s "", by rw [string_render_escaped, hesc]⟩,
    fun c b => ⟨String.singleton c, by rw [char_render, write_char, push_eq_append]⟩,
    ?_,
    fun v b => ⟨if v then "true" else "false", rfl⟩,
    fun v b => ⟨if v then "true" else "false", rfl⟩,
    fun n b => ⟨itoa_format n, rfl⟩, fun n b => ⟨itoa_format n, rfl⟩,
    fun s b => ⟨s, rfl⟩, fun s b => ⟨s, rfl⟩,
    fun p b => ⟨to_string_lossy p, rfl⟩,
    fun p b => ⟨escape_to_buf (to_string_lossy p) "", by rw [path_render_escaped, hesc]⟩,
    fun p b => ⟨to_string_lossy p, rfl⟩,
    fun p b => ⟨escape_to_buf (to_string_lossy p) "", by rw [pathbuf_render_escaped, hesc]⟩⟩
  intro c b
  unfold char_render_escaped
  split_ifs
  · exact ⟨"&quot;", rfl⟩
  · exact ⟨"&amp;", rfl⟩
  · exact ⟨"&lt;", rfl⟩
  · exact ⟨"&gt;", rfl⟩
  · exact ⟨String.singleton c, by rw [write_char, push_eq_append]⟩

/-- Claim C10: for `char`, `render_escaped` of the single-quote character
appends it verbatim with no entity substitution — the four-way switch escapes
only the characters `"`, `&`, `<`, `>`, and any character outside that set
(the single quote included) passes through unchanged, identical to raw
rendering. -/
theorem char_render_escaped_single_quote (b : Buffer) :
    char_render_escaped (Char.ofNat 39) b = .ok (b ++ String.singleton (Char.ofNat 39)) ∧
    char_render_escaped (Char.ofNat 39) b = char_render (Char.ofNat 39) b ∧
    ∀ c : Char, c ∉ (['"', '&', '<', '>'] : List Char) →
      char_render_escaped c b = char_render c b := by
  refine ⟨?_, ?_, ?_⟩
  · unfold char_render_escaped
    rw [if_neg (by decide), if_neg (by decide), if_neg (by decide), if_neg (by decide),
      write_char, push_eq_append]
  · unfold char_render_escaped char_render
    rw [if_neg (by decide), if_neg (by decide), if_neg (by decide), if_neg (by decide)]
  · intro c hc
    simp only [List.mem_cons, List.not_mem_nil, or_false, not_or] at hc
    obtain ⟨h1, h2, h3, h4⟩ := hc
    unfold char_render_escaped char_render
    rw [if_neg h1, if_neg h2, if_neg h3, if_neg h4]

/-- Witness for C10: the single quote is outside the escaped set, so escaped
rendering equals raw rendering on it. -/
theorem char_render_escaped_single_quote_witness :
    char_render_escaped (Char.ofNat 39) "" = char_render (Char.ofNat 39) "" :=
  (char_render_escaped_single_quote "").2.2 (Char.ofNat 39) (by decide)
